import Mathlib

/-!
Shallow embedding of the Number Master Puzzle engine.

The definitions below are translated from the repository's JavaScript
source (`src/systems/ConnectionValidator.js`, `src/systems/MatchSystem.js`,
`src/systems/GridSystem.js`, `src/controllers/GameController.js`,
`src/core/ScoreSystem.js`, `src/core/ResourceSystem.js`,
`src/core/StateMachine.js`, `src/core/LevelSystem.js`,
`src/core/TimerSystem.js`).

Modelling conventions:
* A grid cell holds `some v` for a number and `none` for JavaScript `null`.
* Indexing a JS array out of range yields `undefined`, which is distinct
  from `null`; the three-valued type `JsCell` keeps that distinction,
  because the code's `grid[r]?.[c] !== null` checks treat `undefined` and
  `null` differently from numbers but also differently from each other
  under strict equality.
* The `blockedCells` set of string keys `"r,c"` is modelled as a list of
  integer pairs (key construction from numbers is injective).
* Listener notifications carry no engine state; events that matter to the
  claims are returned explicitly as lists of `GEvent`.
-/

/-- A JavaScript value read from `grid[r]?.[c]`: a number, `null`, or
`undefined` (out-of-range access). -/
inductive JsCell where
  | num (v : Int)
  | null
  | undef
deriving DecidableEq

abbrev GridT := List (List (Option Int))

/-- `grid[r]` as a JS expression: `undefined` (here `none`) when `r` is
negative or at least the number of rows. -/
def rowAt (grid : GridT) (r : Int) : Option (List (Option Int)) :=
  if r < 0 then none else grid.get? r.toNat

/-- `grid[r]?.[c]` with JS semantics. -/
def cellAt (grid : GridT) (r c : Int) : JsCell :=
  match rowAt grid r with
  | none => JsCell.undef
  | some row =>
    if c < 0 then JsCell.undef
    else
      match row.get? c.toNat with
      | none => JsCell.undef
      | some none => JsCell.null
      | some (some v) => JsCell.num v

def isNullCell : JsCell → Bool
  | JsCell.null => true
  | _ => false

/-- The half-open integer interval `[a, b)` as a list. -/
def intRange (a b : Int) : List Int :=
  (List.range (b - a).toNat).map fun k => a + (k : Int)

/-- The half-open interval `[a, b)` of naturals as a list. -/
def natRange (a b : Nat) : List Nat :=
  (List.range (b - a)).map fun k => a + k

/-- A cell lets a path pass through when it is in the blocked set or
holds `null`; every clearance loop in `ConnectionValidator.js` returns
`false` exactly on cells where `!blockedCells.has(key) && grid[row]?.[col] !== null`. -/
def cellPassable (grid : GridT) (blocked : List (Int × Int)) (r c : Int) : Bool :=
  decide ((r, c) ∈ blocked) || isNullCell (cellAt grid r c)

/-- The five strategy names from `ConnectionValidator.js`. -/
inductive PathType where
  | adjacent
  | straightLine
  | diagonal
  | headToTail
  | snakeWrap
deriving DecidableEq

/-- The `{valid, type, points}` object returned by `validateConnection`. -/
structure ConnResult where
  valid : Bool
  type : Option PathType
  points : Nat
deriving DecidableEq

/-- `AdjacentStrategy.isValid`. -/
def adjacentValid (r1 c1 r2 c2 : Int) : Bool :=
  let rowDiff := (r1 - r2).natAbs
  let colDiff := (c1 - c2).natAbs
  decide (rowDiff ≤ 1) && decide (colDiff ≤ 1) &&
    (decide (rowDiff ≠ 0) || decide (colDiff ≠ 0))

/-- `StraightLineStrategy.isHorizontalClear`. -/
def isHorizontalClear (grid : GridT) (blocked : List (Int × Int))
    (row col1 col2 : Int) : Bool :=
  (intRange (min col1 col2 + 1) (max col1 col2)).all fun col =>
    cellPassable grid blocked row col

/-- `StraightLineStrategy.isVerticalClear`. -/
def isVerticalClear (grid : GridT) (blocked : List (Int × Int))
    (col row1 row2 : Int) : Bool :=
  (intRange (min row1 row2 + 1) (max row1 row2)).all fun row =>
    cellPassable grid blocked row col

/-- `StraightLineStrategy.isValid`. -/
def straightValid (grid : GridT) (blocked : List (Int × Int))
    (r1 c1 r2 c2 : Int) : Bool :=
  if r1 = r2 then isHorizontalClear grid blocked r1 c1 c2
  else if c1 = c2 then isVerticalClear grid blocked c1 r1 r2
  else false

/-- `DiagonalStrategy.isValid`.  The source walks `row`/`col` by `±1` from
`(r1+dir, c1+dir)` while `row !== r2 && col !== c2`; after the `|Δrow| = |Δcol|`
guard the walk visits exactly the strictly-between diagonal cells, which is
what the bounded traversal below enumerates.  (The guard ensures the walk is
only entered with `|Δrow| = |Δcol| ≥ 1`: `validateConnection` has already
excluded the same-cell case.) -/
def diagonalValid (grid : GridT) (blocked : List (Int × Int))
    (r1 c1 r2 c2 : Int) : Bool :=
  let rowDiff := r2 - r1
  let colDiff := c2 - c1
  if rowDiff.natAbs ≠ colDiff.natAbs then false
  else
    let rowDir : Int := if 0 < rowDiff then 1 else -1
    let colDir : Int := if 0 < colDiff then 1 else -1
    (List.range (rowDiff.natAbs - 1)).all fun k =>
      cellPassable grid blocked (r1 + ((k : Int) + 1) * rowDir)
        (c1 + ((k : Int) + 1) * colDir)

/-- `HeadToTailStrategy.posToCoord`. -/
def posToCoord (gridCols pos : Nat) : Nat × Nat :=
  (pos / gridCols, pos % gridCols)

/-- `HeadToTailStrategy.coordToPos`. -/
def coordToPos (gridCols row col : Nat) : Nat :=
  row * gridCols + col

/-- `HeadToTailStrategy.findHead`: first linear position whose cell reads
`!== null` (so `undefined` qualifies, exactly as in the source) and is not
blocked. -/
def findHead (gridCols : Nat) (grid : GridT) (blocked : List (Int × Int)) :
    Option (Nat × Nat) :=
  (List.range (grid.length * gridCols)).findSome? fun pos =>
    let rc := posToCoord gridCols pos
    if !isNullCell (cellAt grid (rc.1 : Int) (rc.2 : Int)) &&
        !decide (((rc.1 : Int), (rc.2 : Int)) ∈ blocked) then
      some rc
    else none

/-- `HeadToTailStrategy.findTail`: same scan, backwards. -/
def findTail (gridCols : Nat) (grid : GridT) (blocked : List (Int × Int)) :
    Option (Nat × Nat) :=
  (List.range (grid.length * gridCols)).reverse.findSome? fun pos =>
    let rc := posToCoord gridCols pos
    if !isNullCell (cellAt grid (rc.1 : Int) (rc.2 : Int)) &&
        !decide (((rc.1 : Int), (rc.2 : Int)) ∈ blocked) then
      some rc
    else none

/-- The per-position passability used by the head-to-tail span loops. -/
def posPassable (gridCols : Nat) (grid : GridT) (blocked : List (Int × Int))
    (pos : Nat) : Bool :=
  let rc := posToCoord gridCols pos
  cellPassable grid blocked (rc.1 : Int) (rc.2 : Int)

/-- `HeadToTailStrategy.isClockwiseClear`. -/
def isClockwiseClear (gridCols : Nat) (grid : GridT) (blocked : List (Int × Int))
    (headPos tailPos : Nat) : Bool :=
  (natRange (headPos + 1) tailPos).all (posPassable gridCols grid blocked)

/-- `HeadToTailStrategy.isCounterClockwiseClear`. -/
def isCounterClockwiseClear (gridCols : Nat) (grid : GridT)
    (blocked : List (Int × Int)) (headPos tailPos : Nat) : Bool :=
  (natRange (tailPos + 1) (grid.length * gridCols)).all
      (posPassable gridCols grid blocked) &&
    (natRange 0 headPos).all (posPassable gridCols grid blocked)

/-- `HeadToTailStrategy.isValid`. -/
def headToTailValid (gridCols : Nat) (grid : GridT) (blocked : List (Int × Int))
    (r1 c1 r2 c2 : Int) : Bool :=
  match findHead gridCols grid blocked, findTail gridCols grid blocked with
  | some h, some t =>
    if (r1 = (h.1 : Int) ∧ c1 = (h.2 : Int) ∧ r2 = (t.1 : Int) ∧ c2 = (t.2 : Int)) ∨
        (r1 = (t.1 : Int) ∧ c1 = (t.2 : Int) ∧ r2 = (h.1 : Int) ∧ c2 = (h.2 : Int)) then
      let headPos := coordToPos gridCols h.1 h.2
      let tailPos := coordToPos gridCols t.1 t.2
      isClockwiseClear gridCols grid blocked headPos tailPos ||
        isCounterClockwiseClear gridCols grid blocked headPos tailPos
    else false
  | _, _ => false

/-- `SnakeWrapStrategy.isRightWrapClear`. -/
def isRightWrapClear (gridCols : Nat) (grid : GridT) (blocked : List (Int × Int))
    (r1 c1 r2 c2 : Int) : Bool :=
  (intRange (c1 + 1) (gridCols : Int)).all
      (fun col => cellPassable grid blocked r1 col) &&
    (intRange (min r1 r2 + 1) (max r1 r2)).all
      (fun row => (intRange 0 (gridCols : Int)).all fun col =>
        cellPassable grid blocked row col) &&
    (intRange 0 c2).all (fun col => cellPassable grid blocked r2 col)

/-- `SnakeWrapStrategy.isLeftWrapClear` (the source iterates the same index
sets in descending order; `all` over a list is order-insensitive). -/
def isLeftWrapClear (gridCols : Nat) (grid : GridT) (blocked : List (Int × Int))
    (r1 c1 r2 c2 : Int) : Bool :=
  (intRange 0 c1).all (fun col => cellPassable grid blocked r1 col) &&
    (intRange (min r1 r2 + 1) (max r1 r2)).all
      (fun row => (intRange 0 (gridCols : Int)).all fun col =>
        cellPassable grid blocked row col) &&
    (intRange (c2 + 1) (gridCols : Int)).all
      (fun col => cellPassable grid blocked r2 col)

/-- `SnakeWrapStrategy.isValid`. -/
def snakeWrapValid (gridCols : Nat) (grid : GridT) (blocked : List (Int × Int))
    (r1 c1 r2 c2 : Int) : Bool :=
  if r1 = r2 then false
  else
    isRightWrapClear gridCols grid blocked r1 c1 r2 c2 ||
      isLeftWrapClear gridCols grid blocked r1 c1 r2 c2

/-- `ConnectionValidator.validateConnection`: the guard checks followed by
the strategy array `[Adjacent, StraightLine, Diagonal, HeadToTail, SnakeWrap]`
tried in order, first success winning (this is the constructor's order in the
source). -/
def validateConnection (gridCols : Nat) (grid : GridT)
    (blocked : List (Int × Int)) (r1 c1 r2 c2 : Int) : ConnResult :=
  if r1 = r2 ∧ c1 = c2 then ⟨false, none, 0⟩
  else if rowAt grid r1 = none ∨ rowAt grid r2 = none then ⟨false, none, 0⟩
  else if cellAt grid r1 c1 = JsCell.null ∨ cellAt grid r2 c2 = JsCell.null then
    ⟨false, none, 0⟩
  else if adjacentValid r1 c1 r2 c2 then ⟨true, some PathType.adjacent, 1⟩
  else if straightValid grid blocked r1 c1 r2 c2 then
    ⟨true, some PathType.straightLine, 4⟩
  else if diagonalValid grid blocked r1 c1 r2 c2 then
    ⟨true, some PathType.diagonal, 4⟩
  else if headToTailValid gridCols grid blocked r1 c1 r2 c2 then
    ⟨true, some PathType.headToTail, 4⟩
  else if snakeWrapValid gridCols grid blocked r1 c1 r2 c2 then
    ⟨true, some PathType.snakeWrap, 4⟩
  else ⟨false, none, 0⟩

/-! ### MatchSystem (`src/systems/MatchSystem.js`) -/

/-- The match rules configuration of `MatchSystem` (the game instantiates it
with `sameValue = true`, `sumTarget = 10`, `allowSumMatches = true`; the
`customMatchFn` option is `null` in the game and is not modelled). -/
structure MatchRules where
  sameValue : Bool
  sumTarget : Int
  allowSumMatches : Bool
deriving DecidableEq

/-- `MatchSystem.valuesMatch`, on JS values.  `null` operands are rejected
first; then strict equality under `sameValue`; then the sum rule.  The
`undefined`/`undefined` case follows JS strict equality (`undefined ===
undefined` is `true`, `undefined + undefined` is `NaN`). -/
def valuesMatch (rules : MatchRules) (v1 v2 : JsCell) : Bool :=
  match v1, v2 with
  | JsCell.null, _ => false
  | _, JsCell.null => false
  | JsCell.num a, JsCell.num b =>
    if rules.sameValue && decide (a = b) then true
    else if rules.allowSumMatches then decide (a + b = rules.sumTarget)
    else false
  | JsCell.undef, JsCell.undef => rules.sameValue
  | JsCell.num _, JsCell.undef => false
  | JsCell.undef, JsCell.num _ => false

def optToJs : Option Int → JsCell
  | none => JsCell.null
  | some v => JsCell.num v

/-- `MatchSystem.isRowComplete`: every column of the row is matched. -/
def isRowComplete (matched : List (Nat × Nat)) (row gridCols : Nat) : Bool :=
  (List.range gridCols).all fun col => decide ((row, col) ∈ matched)

/-- `MatchSystem.getCompleteRows`. -/
def getCompleteRows (matched : List (Nat × Nat)) (totalRows gridCols : Nat) :
    List Nat :=
  (List.range totalRows).filter fun row => isRowComplete matched row gridCols

/-- `MatchSystem.updateAfterRowRemoval`: drop matched cells whose row was
removed, shift each survivor's row down by the number of removed rows below
it.  The source's `newRow >= 0` guard is the `b ≤ row` test here (the count
is taken over the descending-sorted copy, but a count is order-insensitive). -/
def updateAfterRowRemoval (matched : List (Nat × Nat)) (removedRows : List Nat) :
    List (Nat × Nat) :=
  matched.filterMap fun rc =>
    if rc.1 ∈ removedRows then none
    else
      let rowsBeforeThis := (removedRows.filter fun r => r < rc.1).length
      if rc.1 < rowsBeforeThis then none
      else some (rc.1 - rowsBeforeThis, rc.2)

/-- `MatchSystem.addMatches`: add each cell that is not already matched. -/
def addMatchesList (matched : List (Nat × Nat)) (cells : List (Nat × Nat)) :
    List (Nat × Nat) :=
  cells.foldl (fun acc cell => if cell ∈ acc then acc else acc ++ [cell]) matched

/-! ### GridSystem (`src/systems/GridSystem.js`) -/

/-- `GridSystem.isValidPosition`. -/
def isValidPosition (grid : GridT) (row col : Nat) : Bool :=
  decide (row < grid.length) && decide (col < ((grid.get? row).getD []).length)

/-- `GridSystem.getCellValue`: `null` for invalid positions, else the cell
(which may itself be `null`). -/
def getCellValue (grid : GridT) (row col : Nat) : Option Int :=
  if isValidPosition grid row col then (((grid.get? row).getD []).get? col).getD none
  else none

/-- `GridSystem.generateGrid`: `rows` rows of `cols` cells.  The random
number source is abstracted into the value function `vals`. -/
def generateGrid (vals : Nat → Nat → Int) (rows cols : Nat) : GridT :=
  (List.range rows).map fun r => (List.range cols).map fun c => some (vals r c)

/-- `GridSystem.removeRow`: splice the row out unless the index is out of
range. -/
def removeRowAt (grid : GridT) (i : Nat) : GridT :=
  if i < grid.length then grid.eraseIdx i else grid

/-- Descending sort, modelling `[...rowIndices].sort((a, b) => b - a)`. -/
def sortDesc (l : List Nat) : List Nat :=
  l.insertionSort fun a b => b ≤ a

/-- `GridSystem.removeRows`: remove the rows one by one in descending index
order. -/
def removeRows (grid : GridT) (rowIndices : List Nat) : GridT :=
  (sortDesc rowIndices).foldl removeRowAt grid

/-! ### Move search (`ConnectionValidator.findValidConnections` /
`hasValidMoves`) -/

def castCoords (l : List (Nat × Nat)) : List (Int × Int) :=
  l.map fun p => ((p.1 : Int), (p.2 : Int))

/-- `ConnectionValidator.findValidConnections`, reduced to the list of
reachable partner coordinates (the source also records type/points/value,
which the stuck check never reads).  `blocked` is the validator's blocked
set; `matched` plays the role of the `matchSystem` argument's matched set
(the controller passes the same set for both). -/
def findValidConnections (gridCols : Nat) (rules : MatchRules) (grid : GridT)
    (blocked : List (Int × Int)) (matched : List (Nat × Nat)) (row col : Nat) :
    List (Nat × Nat) :=
  let cellValue := cellAt grid (row : Int) (col : Int)
  if cellValue = JsCell.null then []
  else
    ((List.range grid.length).map fun r =>
      match grid.get? r with
      | none => []
      | some rowData =>
        (List.range rowData.length).filterMap fun c =>
          if r = row ∧ c = col then none
          else if (r, c) ∈ matched then none
          else
            let targetValue := cellAt grid (r : Int) (c : Int)
            if targetValue = JsCell.null then none
            else if valuesMatch rules cellValue targetValue then
              if (validateConnection gridCols grid blocked
                  (row : Int) (col : Int) (r : Int) (c : Int)).valid then
                some (r, c)
              else none
            else none).flatten

/-- `ConnectionValidator.hasValidMoves`. -/
def hasValidMoves (gridCols : Nat) (rules : MatchRules) (grid : GridT)
    (blocked : List (Int × Int)) (matched : List (Nat × Nat)) : Bool :=
  (List.range grid.length).any fun r =>
    match grid.get? r with
    | none => false
    | some rowData =>
      (List.range rowData.length).any fun c =>
        if cellAt grid (r : Int) (c : Int) = JsCell.null then false
        else if (r, c) ∈ matched then false
        else !(findValidConnections gridCols rules grid blocked matched r c).isEmpty

/-! ### ResourceSystem (`src/core/ResourceSystem.js`), as configured by
`GameController.initializeSystems` -/

/-- One resource's state: `{current, max, min, metadata.initialValue}`. -/
structure ResourceState where
  current : Int
  maxAmount : Int
  minAmount : Int
  initialValue : Int
deriving DecidableEq

/-- The three resource kinds the controller registers (`addMoves`, `hints`,
`changes`), i.e. the spec's AddCells / Hint / ChangeValue. -/
inductive RKind where
  | addMoves
  | hints
  | changes
deriving DecidableEq

/-- The controller's resource ledger: the three registered resources. -/
structure Ledger where
  addMoves : ResourceState
  hints : ResourceState
  changes : ResourceState
deriving DecidableEq

def ledgerGet (l : Ledger) : RKind → ResourceState
  | RKind.addMoves => l.addMoves
  | RKind.hints => l.hints
  | RKind.changes => l.changes

/-- `ResourceSystem.canUse`. -/
def canUseRes (l : Ledger) (k : RKind) (amount : Int) : Bool :=
  decide (amount ≤ (ledgerGet l k).current)

/-- `ResourceSystem.set`: clamp the value into `[min, max]`. -/
def setResource (r : ResourceState) (value : Int) : ResourceState :=
  { r with current := max r.minAmount (min value r.maxAmount) }

/-- `ResourceSystem.reset` on one resource: back to `metadata.initialValue`
(which the controller always supplies). -/
def resetResource (r : ResourceState) : ResourceState :=
  { r with current := r.initialValue }

def ledgerMap (f : ResourceState → ResourceState) (l : Ledger) : Ledger :=
  ⟨f l.addMoves, f l.hints, f l.changes⟩

/-- `ResourceSystem.reset` over the whole ledger. -/
def resetLedger (l : Ledger) : Ledger :=
  ledgerMap resetResource l

/-- The resource updates in `GameController.completeLevel`:
`set('addMoves', 5); set('hints', 5); set('changes', 5)`. -/
def completeLevelLedger (l : Ledger) : Ledger :=
  ledgerMap (fun r => setResource r 5) l

/-- The ledger as configured in `GameController.initializeSystems`:
`{ initial: 5, max: 5, min: 0, metadata: { initialValue: 5 } }` for each
kind. -/
def initialLedger : Ledger :=
  ⟨⟨5, 5, 0, 5⟩, ⟨5, 5, 0, 5⟩, ⟨5, 5, 0, 5⟩⟩

/-! ### ScoreSystem (`src/core/ScoreSystem.js`) -/

structure ScoreState where
  score : Int
  highScore : Int
  multiplier : ℚ
  baseMultiplier : ℚ
  combo : Nat
  maxCombo : Nat
  streak : Nat

/-- `ScoreSystem.addScore` (history bookkeeping omitted): floor the
multiplied points, add, and raise the high score when exceeded. -/
def addScore (s : ScoreState) (points : Int) : ScoreState :=
  let multipliedPoints : Int := ⌊(points : ℚ) * s.multiplier⌋
  let newScore := s.score + multipliedPoints
  { s with
    score := newScore
    highScore := if s.highScore < newScore then newScore else s.highScore }

/-- `ScoreSystem.setMultiplier`. -/
def setMultiplier (s : ScoreState) (value : ℚ) : ScoreState :=
  { s with multiplier := max s.baseMultiplier value }

/-- `ScoreSystem.incrementCombo`. -/
def incrementCombo (s : ScoreState) : ScoreState :=
  let c := s.combo + 1
  let s1 := { s with combo := c, maxCombo := max s.maxCombo c }
  if 0 < c ∧ c % 5 = 0 then setMultiplier s1 (s1.multiplier + 1 / 2) else s1

/-- `ScoreSystem.reset`: score, multiplier, combo and streak reset; the
high score is left untouched. -/
def resetScore (s : ScoreState) : ScoreState :=
  { s with score := 0, multiplier := s.baseMultiplier, combo := 0, streak := 0 }

/-- `GameController.calculateBonusPoints`. -/
def calculateBonusPoints (combo : Nat) : Nat :=
  if 5 < combo then combo / 5 * 5 else 0

/-! ### LevelSystem (`src/core/LevelSystem.js`), linear curve and no level
cap, as configured by the controller -/

structure LevelState where
  level : Nat
  currentExp : Nat
  expRequired : Nat
  baseExpRequired : Nat
deriving DecidableEq

/-- `LevelSystem.calculateExpRequired` with the controller's `linear`
curve: `max(baseExpRequired * level, baseExpRequired)`. -/
def calculateExpRequired (base level : Nat) : Nat :=
  max (base * level) base

/-- One `LevelSystem.levelUp` step. -/
def levelUpStep (ls : LevelState) : LevelState :=
  let lvl := ls.level + 1
  { ls with
    level := lvl
    currentExp := ls.currentExp - ls.expRequired
    expRequired := calculateExpRequired ls.baseExpRequired lvl }

/-- The `while (currentExp >= expRequired)` loop of
`LevelSystem.addExperience`, with `fuel` bounding the iteration count.
Each iteration subtracts `expRequired ≥ baseExpRequired` from
`currentExp`, so `fuel = currentExp` iterations suffice whenever
`baseExpRequired ≥ 1` (the game configures 100; the JS loop would not
terminate with a zero requirement).  Returns the final state together with
the levels passed to the `onLevelUp` callback, in order. -/
def levelLoop : Nat → LevelState → LevelState × List Nat
  | 0, ls => (ls, [])
  | fuel + 1, ls =>
    if ls.expRequired ≤ ls.currentExp then
      let ls1 := levelUpStep ls
      let rest := levelLoop fuel ls1
      (rest.1, ls1.level :: rest.2)
    else (ls, [])

/-- `LevelSystem.addExperience` (no level cap configured). -/
def addExperience (ls : LevelState) (exp : Nat) : LevelState × List Nat :=
  let ls1 := { ls with currentExp := ls.currentExp + exp }
  levelLoop ls1.currentExp ls1

/-! ### TimerSystem (`src/core/TimerSystem.js`), countdown mode -/

structure TimerState where
  duration : Int
  currentTime : Int
  isRunning : Bool
  isPaused : Bool
deriving DecidableEq

/-- `TimerSystem.start` (interval scheduling elided). -/
def timerStart (t : TimerState) : TimerState :=
  if t.isRunning then t else { t with isRunning := true, isPaused := false }

/-- `TimerSystem.pause`. -/
def timerPause (t : TimerState) : TimerState :=
  if !t.isRunning then t else { t with isRunning := false, isPaused := true }

/-- `TimerSystem.stop`. -/
def timerStop (t : TimerState) : TimerState :=
  timerPause t

/-- `TimerSystem.reset` with a new duration, in countdown mode: stop, take
the new duration, and set `currentTime` to it. -/
def timerReset (t : TimerState) (newDuration : Int) : TimerState :=
  let t1 := timerStop t
  { t1 with duration := newDuration, currentTime := newDuration, isPaused := false }

/-! ### StateMachine (`src/core/StateMachine.js`) -/

/-- The static configuration accumulated through `addState` /
`addTransition`: registered state names, each state's
`allowedTransitions`, the `transitions` map keys, and each stored
transition's condition evaluated at the machine's context.  The
`onEnter`/`onExit` hooks are modelled by the execution log that
`transitionSM` returns. -/
structure SMConfig (S : Type) where
  stateNames : List S
  allowed : S → List S
  transPairs : List (S × S)
  transCond : S → S → Bool

/-- The mutable part of a `StateMachine`. -/
structure SMState (S : Type) where
  currentState : S
  previousState : Option S
  stateHistory : List S
  maxHistorySize : Nat

/-- `StateMachine.canTransition`. -/
def canTransition {S : Type} [DecidableEq S] (cfg : SMConfig S) (sm : SMState S)
    (toState : S) : Bool :=
  if toState ∉ cfg.stateNames then false
  else if (sm.currentState, toState) ∈ cfg.transPairs then
    cfg.transCond sm.currentState toState
  else if sm.currentState ∈ cfg.stateNames ∧ cfg.allowed sm.currentState ≠ [] then
    decide (toState ∈ cfg.allowed sm.currentState)
  else true

/-- History update in `StateMachine.transition`: push, then `shift()` when
the history exceeds `maxHistorySize`. -/
def pushHistory {S : Type} (history : List S) (maxSize : Nat) (toState : S) :
    List S :=
  let h1 := history ++ [toState]
  if maxSize < h1.length then h1.drop 1 else h1

/-- Result of `StateMachine.transition`: the returned boolean, the machine
state afterwards, and the hooks that ran (state name, `true` for
`onEnter`, `false` for `onExit`) in execution order. -/
structure TransResult (S : Type) where
  ok : Bool
  sm : SMState S
  hooks : List (S × Bool)

/-- `StateMachine.transition`. -/
def transitionSM {S : Type} [DecidableEq S] (cfg : SMConfig S) (sm : SMState S)
    (toState : S) : TransResult S :=
  if toState ∉ cfg.stateNames then ⟨false, sm, []⟩
  else if !canTransition cfg sm toState then ⟨false, sm, []⟩
  else
    let exitHooks : List (S × Bool) :=
      if sm.currentState ∈ cfg.stateNames then [(sm.currentState, false)] else []
    let sm1 : SMState S :=
      { sm with
        previousState := some sm.currentState
        currentState := toState
        stateHistory := pushHistory sm.stateHistory sm.maxHistorySize toState }
    let enterHooks : List (S × Bool) :=
      if toState ∈ cfg.stateNames then [(toState, true)] else []
    ⟨true, sm1, exitHooks ++ enterHooks⟩

/-! ### GameController (`src/controllers/GameController.js`) -/

/-- The controller's four states. -/
inductive GState where
  | idle
  | playing
  | paused
  | gameOver
deriving DecidableEq

/-- `matchFailed` reasons. -/
inductive FailReason where
  | valuesMismatch
  | noValidPath
deriving DecidableEq

/-- The outbound notifications relevant to the claims. -/
inductive GEvent where
  | cellSelected (row col : Nat)
  | changeModeSelect (row col : Nat)
  | matchFailed (reason : FailReason)
  | matchSuccess (points : Nat) (ptype : Option PathType)
  | rowsCompleted (rows : List Nat) (bonus : Nat)
  | levelUp (level : Nat)
  | levelComplete (level : Nat)
  | gameOver
deriving DecidableEq

/-- The controller's state: the subsystems it owns plus its own selection
bookkeeping.  `vals` abstracts the random number generator used by grid
generation. -/
structure GameState where
  machine : GState
  sel : Option (Nat × Nat)
  hintCells : List (Nat × Nat)
  isChangeMode : Bool
  grid : GridT
  matched : List (Nat × Nat)
  cols : Nat
  rules : MatchRules
  res : Ledger
  score : ScoreState
  levelSt : LevelState
  timer : TimerState
  vals : Nat → Nat → Int

/-- The spec's `rows(level)` with the defaults (`baseRows = 4`); also the
inline formula `4 + (newLevel - 1)` of `GameController.handleLevelUp`. -/
def rowsForLevel (level : Nat) : Nat :=
  4 + (level - 1)

/-- The spec's `timeBudget(level)` with the defaults (`baseTime = 420`,
`decrement = 30`, `minTime = 120`); also the inline formula
`Math.max(120, 420 - (newLevel - 1) * 30)` of `GameController.handleLevelUp`. -/
def timeBudgetForLevel (level : Nat) : Int :=
  max 120 (420 - 30 * ((level : Int) - 1))

/-- `GameController.handleLevelUp`: regenerate the grid with
`4 + (newLevel - 1)` rows, clear the matches, reset the timer to
`Math.max(120, 420 - (newLevel - 1) * 30)`, restart it if the game is
playing. -/
def applyHandleLevelUp (gs : GameState) (newLevel : Nat) :
    GameState × List GEvent :=
  let newRows := 4 + (newLevel - 1)
  let grid1 := generateGrid gs.vals newRows gs.cols
  let newTime : Int := max 120 (420 - 30 * ((newLevel : Int) - 1))
  let t1 := timerReset gs.timer newTime
  let t2 := if gs.machine = GState.playing then timerStart t1 else t1
  ({ gs with grid := grid1, matched := [], timer := t2 },
    [GEvent.levelUp newLevel])

/-- The unmatched-cell count of `GameController.checkLevelCompletion`. -/
def countUnmatched (grid : GridT) (matched : List (Nat × Nat)) : Nat :=
  ((List.range grid.length).map fun r =>
    let rowData := (grid.get? r).getD []
    ((List.range rowData.length).filter fun (c : Nat) =>
      !isNullCell (cellAt grid (r : Int) (c : Int)) &&
        !decide ((r, c) ∈ matched)).length).sum

/-- `GameController.checkGameStuck`, reduced to whether the game-over
transition fires: with AddCells or ChangeValue still usable the check
returns early; otherwise game over exactly when no valid move exists.
(`hasHints` is computed by the source and never read, reproduced here.) -/
def checkGameStuck (gs : GameState) : Bool :=
  let hasAddMoves := canUseRes gs.res RKind.addMoves 1
  let _hasHints := canUseRes gs.res RKind.hints 1
  let hasChanges := canUseRes gs.res RKind.changes 1
  if hasAddMoves || hasChanges then false
  else
    !(hasValidMoves gs.cols gs.rules gs.grid (castCoords gs.matched) gs.matched)

/-- The three possible outcomes of `GameController.checkLevelCompletion`. -/
inductive LevelOutcome where
  | levelComplete
  | gameOver
  | keepPlaying
deriving DecidableEq

/-- `GameController.checkLevelCompletion`, as a classification: complete
level when no unmatched cell or no row remains, otherwise run the stuck
check. -/
def checkLevelCompletionOutcome (gs : GameState) : LevelOutcome :=
  if countUnmatched gs.grid gs.matched = 0 ∨ gs.grid.length = 0 then
    LevelOutcome.levelComplete
  else if checkGameStuck gs then LevelOutcome.gameOver
  else LevelOutcome.keepPlaying

/-- `GameController.completeLevel`: add enough experience to level up (the
`onLevelUp` callback runs `handleLevelUp`), then set the three resources
to 5 and notify `levelComplete` with the new level. -/
def applyCompleteLevel (gs : GameState) : GameState × List GEvent :=
  let expNeeded := gs.levelSt.expRequired - gs.levelSt.currentExp
  let amount := max 100 expNeeded
  let lifted := addExperience gs.levelSt amount
  let gs1 := { gs with levelSt := lifted.1 }
  let stepped := lifted.2.foldl
    (fun acc lvl =>
      let r := applyHandleLevelUp acc.1 lvl
      (r.1, acc.2 ++ r.2))
    ((gs1, []) : GameState × List GEvent)
  let gs2 := { stepped.1 with res := completeLevelLedger stepped.1.res }
  (gs2, stepped.2 ++ [GEvent.levelComplete lifted.1.level])

/-- `checkLevelCompletion` as a state transformer: completing the level or
(when stuck and still playing) transitioning to game over, which pauses
the timer (the `playing` state's `onExit`) and emits `gameOver`. -/
def applyCheckLevelCompletion (gs : GameState) : GameState × List GEvent :=
  match checkLevelCompletionOutcome gs with
  | LevelOutcome.levelComplete => applyCompleteLevel gs
  | LevelOutcome.gameOver =>
    if gs.machine = GState.playing then
      ({ gs with machine := GState.gameOver, timer := timerPause gs.timer },
        [GEvent.gameOver])
    else (gs, [])
  | LevelOutcome.keepPlaying => (gs, [])

/-- `GameController.handleCompleteRows`: remove the rows, reindex the
matched set, add the row bonus, notify `rowsCompleted`, and re-check level
completion. -/
def applyHandleCompleteRows (gs : GameState) (completeRows : List Nat) :
    GameState × List GEvent :=
  let grid1 := removeRows gs.grid completeRows
  let matched1 := updateAfterRowRemoval gs.matched completeRows
  let bonus := completeRows.length * 10
  let score1 := addScore gs.score (bonus : Int)
  let gs1 := { gs with grid := grid1, matched := matched1, score := score1 }
  let checked := applyCheckLevelCompletion gs1
  (checked.1, [GEvent.rowsCompleted completeRows bonus] ++ checked.2)

/-- `GameController.processMatch`. -/
def processMatch (gs : GameState) (r1 c1 r2 c2 : Nat) (result : ConnResult) :
    GameState × List GEvent :=
  let matched1 := addMatchesList gs.matched [(r1, c1), (r2, c2)]
  let basePoints := result.points
  let bonusPoints := calculateBonusPoints gs.score.combo
  let totalPoints := basePoints + bonusPoints
  let score1 := incrementCombo (addScore gs.score (totalPoints : Int))
  let gs1 := { gs with matched := matched1, score := score1 }
  let completeRows := getCompleteRows matched1 gs1.grid.length gs1.cols
  let afterRows :=
    if completeRows ≠ [] then applyHandleCompleteRows gs1 completeRows
    else (gs1, [])
  let afterCheck := applyCheckLevelCompletion afterRows.1
  ({ afterCheck.1 with sel := none },
    afterRows.2 ++ afterCheck.2 ++
      [GEvent.matchSuccess totalPoints result.type])

/-- `GameController.attemptMatch` (the first selection's coordinates are
passed explicitly; the source reads them from `this.selectedCell`). -/
def attemptMatch (gs : GameState) (r1 c1 row2 col2 : Nat) :
    GameState × List GEvent :=
  let v1 := getCellValue gs.grid r1 c1
  let v2 := getCellValue gs.grid row2 col2
  if !valuesMatch gs.rules (optToJs v1) (optToJs v2) then
    ({ gs with sel := none }, [GEvent.matchFailed FailReason.valuesMismatch])
  else
    let result := validateConnection gs.cols gs.grid (castCoords gs.matched)
      (r1 : Int) (c1 : Int) (row2 : Int) (col2 : Int)
    if !result.valid then
      ({ gs with sel := none }, [GEvent.matchFailed FailReason.noValidPath])
    else processMatch gs r1 c1 row2 col2 result

/-- `GameController.handleCellPress`. -/
def handleCellPress (gs : GameState) (row col : Nat) : GameState × List GEvent :=
  if gs.machine ≠ GState.playing then (gs, [])
  else if getCellValue gs.grid row col = none then (gs, [])
  else if (row, col) ∈ gs.matched then (gs, [])
  else
    let gs1 := { gs with hintCells := [] }
    if gs1.isChangeMode then (gs1, [GEvent.changeModeSelect row col])
    else
      match gs1.sel with
      | none => ({ gs1 with sel := some (row, col) }, [GEvent.cellSelected row col])
      | some p => attemptMatch gs1 p.1 p.2 row col

/-- Replace the current amount of the Hint resource. -/
def setHints (gs : GameState) (n : Int) : GameState :=
  { gs with res := { gs.res with hints := { gs.res.hints with current := n } } }

/-! ### Concrete instances used by witnesses and counterexamples -/

/-- The match rules `GameController.initializeSystems` passes to
`MatchSystem`. -/
def gameRules : MatchRules := ⟨true, 10, true⟩

/-- A 2-row, 3-column grid on which the head/tail pair `(0,0)`–`(1,2)` is
connectable both by the head-to-tail and by the snake-wrap topology while
no earlier strategy applies. -/
def c1Grid : GridT := [[some 1, none, none], [none, none, some 9]]

/-- The spec's Scenario C grid. -/
def scenarioCGrid : GridT := [[some 1, none], [none, some 9]]

/-- A 2-row, 1-column grid used to probe out-of-range column indices. -/
def c2Grid : GridT := [[some 1], [some 1]]

/-- Grid for the row-compaction witness. -/
def c3Grid : GridT := [[some 1, some 2], [some 3, some 4]]

/-- Matched set completing row 0 of `c3Grid` plus one survivor in row 1. -/
def c3Matched : List (Nat × Nat) := [(0, 0), (0, 1), (1, 0)]

def baseTimer : TimerState := ⟨420, 420, false, false⟩

def baseLevel : LevelState := ⟨1, 0, 100, 100⟩

def baseScore : ScoreState := ⟨0, 0, 1, 1, 0, 0, 0⟩

/-- A score state reachable through the constructor configuration
`{ initialScore: -1, highScore: -1 }` (the constructor applies no
clamping: `config.initialScore || 0` keeps any nonzero value). -/
def negScore : ScoreState := ⟨-1, -1, 1, 1, 0, 0, 0⟩

/-- A playing controller state with cell `(0,0)` of a 1×2 grid currently
selected and a hint highlight showing. -/
def pressState : GameState :=
  ⟨GState.playing, some (0, 0), [(0, 1)], false, [[some 5, some 5]], [], 2,
    gameRules, initialLedger, baseScore, baseLevel, baseTimer, fun _ _ => 5⟩

/-- A ledger whose three resources have the game's configuration but
arbitrary current amounts. -/
def demoLedger : Ledger := ⟨⟨2, 5, 0, 5⟩, ⟨0, 5, 0, 5⟩, ⟨4, 5, 0, 5⟩⟩

/-- A two-state machine over `Nat` state names. -/
def smDemoCfg : SMConfig Nat :=
  ⟨[0, 1], fun s => if s = 0 then [1] else [], [], fun _ _ => true⟩

def smDemo : SMState Nat := ⟨0, none, [0], 10⟩

/-! ### Helper lemmas -/

theorem sortDesc_perm (l : List Nat) : List.Perm (sortDesc l) l :=
  List.perm_insertionSort _ l

theorem sortDesc_sorted (l : List Nat) :
    (sortDesc l).Pairwise fun a b => b ≤ a := by
  letI : IsTotal Nat fun a b : Nat => b ≤ a := ⟨fun a b => le_total b a⟩
  letI : IsTrans Nat fun a b : Nat => b ≤ a := ⟨fun _ _ _ h1 h2 => le_trans h2 h1⟩
  exact List.sorted_insertionSort _ l

theorem sortDesc_strict (l : List Nat) (h : l.Nodup) :
    (sortDesc l).Pairwise fun a b => b < a := by
  have hn : (sortDesc l).Nodup := ((sortDesc_perm l).nodup_iff).mpr h
  exact ((sortDesc_sorted l).and hn).imp fun hab =>
    lt_of_le_of_ne hab.1 (Ne.symm hab.2)

theorem foldl_removeRowAt_length (l : List Nat) :
    ∀ grid : GridT, (l.Pairwise fun a b => b < a) → (∀ i ∈ l, i < grid.length) →
      (l.foldl removeRowAt grid).length = grid.length - l.length := by
  induction l with
  | nil => intro grid _ _; simp
  | cons a t ih =>
    intro grid hp hb
    have ha : a < grid.length := hb a (List.mem_cons_self a t)
    have h1 : removeRowAt grid a = grid.eraseIdx a := by simp [removeRowAt, ha]
    have hlen : (grid.eraseIdx a).length = grid.length - 1 := by
      have := List.length_eraseIdx_add_one (l := grid) (i := a) ha
      omega
    have hb2 : ∀ i ∈ t, i < (grid.eraseIdx a).length := by
      intro i hi
      have : i < a := (List.pairwise_cons.mp hp).1 i hi
      omega
    calc ((a :: t).foldl removeRowAt grid).length
        = (t.foldl removeRowAt (grid.eraseIdx a)).length := by
          rw [List.foldl_cons, h1]
      _ = (grid.eraseIdx a).length - t.length :=
          ih (grid.eraseIdx a) (List.pairwise_cons.mp hp).2 hb2
      _ = grid.length - (a :: t).length := by
          rw [hlen, List.length_cons]; omega

theorem removeRows_length (grid : GridT) (l : List Nat) (hnd : l.Nodup)
    (hb : ∀ i ∈ l, i < grid.length) :
    (removeRows grid l).length = grid.length - l.length := by
  unfold removeRows
  rw [foldl_removeRowAt_length (sortDesc l) grid (sortDesc_strict l hnd)
    (fun i hi => hb i ((sortDesc_perm l).mem_iff.mp hi))]
  rw [(sortDesc_perm l).length_eq]

theorem getCompleteRows_nodup (matched : List (Nat × Nat)) (n cols : Nat) :
    (getCompleteRows matched n cols).Nodup :=
  (List.nodup_range n).filter _

theorem getCompleteRows_lt (matched : List (Nat × Nat)) (n cols : Nat) :
    ∀ r ∈ getCompleteRows matched n cols, r < n := by
  intro r hr
  exact List.mem_range.mp (List.mem_filter.mp hr).1

theorem filter_lt_add_filter_gt (l : List Nat) (x : Nat) (hx : x ∉ l) :
    (l.filter fun d => d < x).length + (l.filter fun d => x < d).length =
      l.length := by
  induction l with
  | nil => simp
  | cons a t ih =>
    have hax : a ≠ x := fun h => hx (h ▸ List.mem_cons_self a t)
    have hxt : x ∉ t := fun h => hx (List.mem_cons_of_mem a h)
    rcases Nat.lt_trichotomy a x with h | h | h
    · have h2 : ¬x < a := by omega
      rw [List.filter_cons_of_pos (by simpa using h),
        List.filter_cons_of_neg (by simpa using h2)]
      simp only [List.length_cons]
      have := ih hxt
      omega
    · exact absurd h hax
    · have h2 : ¬a < x := by omega
      rw [List.filter_cons_of_neg (by simpa using h2),
        List.filter_cons_of_pos (by simpa using h)]
      simp only [List.length_cons]
      have := ih hxt
      omega

theorem filter_gt_length_le (l : List Nat) (x n : Nat) (hnd : l.Nodup)
    (hb : ∀ i ∈ l, i < n) :
    (l.filter fun d => x < d).length ≤ n - 1 - x := by
  have hmnd : (l.filter fun d => x < d).Nodup := hnd.filter _
  have hsub : ∀ y ∈ (l.filter fun d => x < d).toFinset, y ∈ Finset.Ioo x n := by
    intro y hy
    have h1 := List.mem_filter.mp (List.mem_toFinset.mp hy)
    exact Finset.mem_Ioo.mpr ⟨by simpa using h1.2, hb y h1.1⟩
  calc (l.filter fun d => x < d).length
      = (l.filter fun d => x < d).toFinset.card :=
        (List.toFinset_card_of_nodup hmnd).symm
    _ ≤ (Finset.Ioo x n).card := Finset.card_le_card hsub
    _ = n - x - 1 := Nat.card_Ioo x n
    _ ≤ n - 1 - x := by omega

theorem timerStart_currentTime (t : TimerState) :
    (timerStart t).currentTime = t.currentTime := by
  unfold timerStart; split <;> rfl

theorem timerStart_duration (t : TimerState) :
    (timerStart t).duration = t.duration := by
  unfold timerStart; split <;> rfl

/-! ### Claim theorems -/

/-- C1 (amended): `validateConnection` evaluates the strategies in the
fixed priority order Adjacent, StraightLine, Diagonal, HeadToTail,
SnakeWrap and returns the name and points of the first that succeeds; in
particular, on a pair of distinct in-range non-null cells that both the
head-to-tail and the snake-wrap topology connect while no earlier
strategy does, the reported path type is `headToTail` (with 4 points),
not `snakeWrap`. -/
theorem validateConnection_priority_headToTail_first
    (gridCols : Nat) (grid : GridT) (blocked : List (Int × Int))
    (r1 c1 r2 c2 : Int)
    (hne : ¬(r1 = r2 ∧ c1 = c2))
    (hrow1 : rowAt grid r1 ≠ none) (hrow2 : rowAt grid r2 ≠ none)
    (hcell1 : cellAt grid r1 c1 ≠ JsCell.null)
    (hcell2 : cellAt grid r2 c2 ≠ JsCell.null)
    (hadj : adjacentValid r1 c1 r2 c2 = false)
    (hstraight : straightValid grid blocked r1 c1 r2 c2 = false)
    (hdiag : diagonalValid grid blocked r1 c1 r2 c2 = false)
    (hh2t : headToTailValid gridCols grid blocked r1 c1 r2 c2 = true)
    (_hsnake : snakeWrapValid gridCols grid blocked r1 c1 r2 c2 = true) :
    validateConnection gridCols grid blocked r1 c1 r2 c2 =
      ⟨true, some PathType.headToTail, 4⟩ := by
  unfold validateConnection
  rw [if_neg hne, if_neg (by simp [hrow1, hrow2]),
    if_neg (by simp [hcell1, hcell2])]
  simp [hadj, hstraight, hdiag, hh2t]

/-- Witness for C1's amended theorem on `c1Grid`. -/
theorem validateConnection_priority_headToTail_first_witness :
    validateConnection 3 c1Grid [] 0 0 1 2 =
      ⟨true, some PathType.headToTail, 4⟩ :=
  validateConnection_priority_headToTail_first 3 c1Grid [] 0 0 1 2
    (by decide) (by decide) (by decide) (by decide) (by decide) (by decide)
    (by decide) (by decide) (by decide) (by decide)

/-- C1 counterexample to the claim as stated: on `c1Grid`, both the
snake-wrap and the head-to-tail topology connect `(0,0)` and `(1,2)` and
no earlier strategy does, yet the reported path type is `headToTail`, not
`snakeWrap` — the source constructs its strategy array with HeadToTail
before SnakeWrap. -/
theorem headToTail_reported_not_snakeWrap_cex :
    adjacentValid 0 0 1 2 = false ∧
    straightValid c1Grid [] 0 0 1 2 = false ∧
    diagonalValid c1Grid [] 0 0 1 2 = false ∧
    snakeWrapValid 3 c1Grid [] 0 0 1 2 = true ∧
    headToTailValid 3 c1Grid [] 0 0 1 2 = true ∧
    (validateConnection 3 c1Grid [] 0 0 1 2).type = some PathType.headToTail ∧
    (validateConnection 3 c1Grid [] 0 0 1 2).type ≠ some PathType.snakeWrap := by
  decide

/-- C2 (amended): a call whose row index is out of range (so that
`grid[r]` is falsy) returns the not-connected result; the embedding is a
total function, so no such call can throw.  (Out-of-range *column*
indices with in-range rows are not rejected — see the counterexample.) -/
theorem validateConnection_out_of_range_row_invalid
    (gridCols : Nat) (grid : GridT) (blocked : List (Int × Int))
    (r1 c1 r2 c2 : Int)
    (hrow : rowAt grid r1 = none ∨ rowAt grid r2 = none) :
    validateConnection gridCols grid blocked r1 c1 r2 c2 =
      ⟨false, none, 0⟩ := by
  unfold validateConnection
  by_cases h : r1 = r2 ∧ c1 = c2
  · rw [if_pos h]
  · rw [if_neg h, if_pos hrow]

/-- Witness for C2's amended theorem: a stale row index 5 on a 2-row
grid. -/
theorem validateConnection_out_of_range_row_invalid_witness :
    validateConnection 9 c2Grid [] 5 0 0 0 = ⟨false, none, 0⟩ :=
  validateConnection_out_of_range_row_invalid 9 c2Grid [] 5 0 0 0
    (by decide)

/-- C2 counterexample to the claim as stated: every row of `c2Grid` has
length 1, so column index 5 is out of range, yet
`validateConnection(0,5,1,5)` reports a *valid* adjacent connection — the
`grid[r][c] === null` guard does not reject `undefined`, and the adjacent
strategy never reads the grid. -/
theorem out_of_range_col_reported_valid_cex :
    c2Grid.map List.length = [1, 1] ∧
    validateConnection 9 c2Grid [] 0 5 1 5 =
      ⟨true, some PathType.adjacent, 1⟩ := by
  decide

/-- C3: if every matched coordinate is within the grid's bounds, then
after removing the complete rows and rebuilding the matched set, the new
grid has `oldRows - k` rows and every surviving coordinate `p` has a row
index below the new row count, descends from an old coordinate whose row
was not removed, and its new row index is the old one minus the number of
removed rows below it. -/
theorem updateAfterRowRemoval_inbounds
    (grid : GridT) (matched : List (Nat × Nat)) (cols : Nat) (p : Nat × Nat)
    (hin : ∀ q ∈ matched, q.1 < grid.length)
    (hp : p ∈ updateAfterRowRemoval matched
      (getCompleteRows matched grid.length cols)) :
    (removeRows grid (getCompleteRows matched grid.length cols)).length =
      grid.length - (getCompleteRows matched grid.length cols).length ∧
    p.1 < (removeRows grid (getCompleteRows matched grid.length cols)).length ∧
    ∃ q ∈ matched, q.1 ∉ getCompleteRows matched grid.length cols ∧
      p.2 = q.2 ∧
      p.1 = q.1 - ((getCompleteRows matched grid.length cols).filter
        fun d => d < q.1).length := by
  set removed := getCompleteRows matched grid.length cols with hremoved
  have hnd : removed.Nodup := getCompleteRows_nodup matched grid.length cols
  have hblt : ∀ i ∈ removed, i < grid.length :=
    getCompleteRows_lt matched grid.length cols
  have hlen : (removeRows grid removed).length = grid.length - removed.length :=
    removeRows_length grid removed hnd hblt
  obtain ⟨q, hq, hf⟩ := List.mem_filterMap.mp hp
  simp only at hf
  by_cases h1 : q.1 ∈ removed
  · rw [if_pos h1] at hf; cases hf
  · rw [if_neg h1] at hf
    by_cases h2 : q.1 < (removed.filter fun d => d < q.1).length
    · rw [if_pos h2] at hf; cases hf
    · rw [if_neg h2] at hf
      have hpq : p = (q.1 - (removed.filter fun d => d < q.1).length, q.2) :=
        (Option.some_injective _ hf).symm
      have hsum := filter_lt_add_filter_gt removed q.1 h1
      have hgt := filter_gt_length_le removed q.1 grid.length hnd hblt
      have hq1 : q.1 < grid.length := hin q hq
      refine ⟨hlen, ?_, q, hq, h1, by rw [hpq], by rw [hpq]⟩
      rw [hpq, hlen]
      omega

/-- Witness for C3: matching all of row 0 and cell `(1,0)` of a 2×2 grid
removes row 0; the survivor `(1,0)` becomes `(0,0)`, inside the 1-row
grid. -/
theorem updateAfterRowRemoval_inbounds_witness :
    (removeRows c3Grid (getCompleteRows c3Matched c3Grid.length 2)).length =
      c3Grid.length - (getCompleteRows c3Matched c3Grid.length 2).length ∧
    (0 : Nat) < (removeRows c3Grid
      (getCompleteRows c3Matched c3Grid.length 2)).length ∧
    ∃ q ∈ c3Matched, q.1 ∉ getCompleteRows c3Matched c3Grid.length 2 ∧
      (0 : Nat) = q.2 ∧
      (0 : Nat) = q.1 - ((getCompleteRows c3Matched c3Grid.length 2).filter
        fun d => d < q.1).length :=
  updateAfterRowRemoval_inbounds c3Grid c3Matched 2 (0, 0)
    (by decide) (by decide)

/-- C4: after a match or row compaction, `checkLevelCompletion` ends in
the game-over transition exactly when the level is not complete (some
unmatched cell remains and the grid is non-empty), `hasValidMoves` is
false, and neither AddCells nor ChangeValue is usable; and the outcome is
unchanged under any modification of the remaining Hint uses. -/
theorem stuck_check_gameOver_iff (gs : GameState) (n : Int) :
    (checkLevelCompletionOutcome gs = LevelOutcome.gameOver ↔
      (countUnmatched gs.grid gs.matched ≠ 0 ∧ gs.grid.length ≠ 0 ∧
        canUseRes gs.res RKind.addMoves 1 = false ∧
        canUseRes gs.res RKind.changes 1 = false ∧
        hasValidMoves gs.cols gs.rules gs.grid (castCoords gs.matched)
          gs.matched = false)) ∧
    checkLevelCompletionOutcome (setHints gs n) =
      checkLevelCompletionOutcome gs := by
  constructor
  · unfold checkLevelCompletionOutcome checkGameStuck
    by_cases hA : countUnmatched gs.grid gs.matched = 0 ∨ gs.grid.length = 0
    · rw [if_pos hA]
      constructor
      · intro h; cases h
      · rintro ⟨h1, h2, -⟩
        rcases hA with hA | hA
        · exact absurd hA h1
        · exact absurd hA h2
    · rw [if_neg hA]
      push_neg at hA
      cases hAdd : canUseRes gs.res RKind.addMoves 1 <;>
        cases hCh : canUseRes gs.res RKind.changes 1 <;>
          cases hM : hasValidMoves gs.cols gs.rules gs.grid
            (castCoords gs.matched) gs.matched <;>
            simp [hAdd, hCh, hM, hA.1, hA.2]
  · rfl

/-- C5 counterexample to Scenario C as stated: on
`[[1, null], [null, 9]]` the call `validate(0,0,1,1)` does match, but the
reported path type is not `snakeWrap`. -/
theorem scenarioC_reported_not_snakeWrap_cex :
    (validateConnection 2 scenarioCGrid [] 0 0 1 1).valid = true ∧
    (validateConnection 2 scenarioCGrid [] 0 0 1 1).type ≠
      some PathType.snakeWrap := by
  decide

/-- C5 (amended): Scenario C matches via the adjacent strategy (1 point):
the two cells are diagonal neighbours, and Adjacent has the highest
priority, even though the snake-wrap topology also connects the pair. -/
theorem scenarioC_adjacent_first :
    validateConnection 2 scenarioCGrid [] 0 0 1 1 =
      ⟨true, some PathType.adjacent, 1⟩ ∧
    snakeWrapValid 2 scenarioCGrid [] 0 0 1 1 = true := by
  decide

/-- C6: for every level ≥ 1, `handleLevelUp` regenerates the grid with
`rows(level) = 4 + (level - 1)` rows of `gridColumns` cells and resets the
timer (current time and duration) to
`timeBudget(level) = max(120, 420 - (level - 1) * 30)`. -/
theorem handleLevelUp_rows_and_time (gs : GameState) (level : Nat)
    (_h : 1 ≤ level) :
    (applyHandleLevelUp gs level).1.grid.length = rowsForLevel level ∧
    ((applyHandleLevelUp gs level).1.grid.all fun row =>
      decide (row.length = gs.cols)) = true ∧
    (applyHandleLevelUp gs level).1.timer.currentTime =
      timeBudgetForLevel level ∧
    (applyHandleLevelUp gs level).1.timer.duration =
      timeBudgetForLevel level := by
  refine ⟨?_, ?_, ?_, ?_⟩
  · simp [applyHandleLevelUp, generateGrid, rowsForLevel]
  · simp [applyHandleLevelUp, generateGrid, List.all_eq_true]
  · by_cases hm : gs.machine = GState.playing <;>
      simp [applyHandleLevelUp, hm, timerStart_currentTime, timerReset,
        timerStop, timerPause, timeBudgetForLevel]
  · by_cases hm : gs.machine = GState.playing <;>
      simp [applyHandleLevelUp, hm, timerStart_duration, timerReset,
        timerStop, timerPause, timeBudgetForLevel]

/-- Witness for C6 at level 12, where the time budget has hit the
120-second floor (420 - 11·30 = 90 < 120). -/
theorem handleLevelUp_rows_and_time_witness :
    (applyHandleLevelUp pressState 12).1.grid.length = rowsForLevel 12 ∧
    ((applyHandleLevelUp pressState 12).1.grid.all fun row =>
      decide (row.length = pressState.cols)) = true ∧
    (applyHandleLevelUp pressState 12).1.timer.currentTime =
      timeBudgetForLevel 12 ∧
    (applyHandleLevelUp pressState 12).1.timer.duration =
      timeBudgetForLevel 12 :=
  handleLevelUp_rows_and_time pressState 12 (by decide)

/-- C7 (amended): pressing the currently selected cell again is *not*
rejected before the validator: `handleCellPress` forwards it to
`attemptMatch`, the value rule trivially holds, `validateConnection`
returns invalid for identical coordinates, and the press therefore clears
the hint highlights and the selection and emits `matchFailed` with reason
`noValidPath`. -/
theorem reselect_reaches_validator (gs : GameState) (r c : Nat) (v : Int)
    (hplay : gs.machine = GState.playing)
    (hcell : getCellValue gs.grid r c = some v)
    (hnm : (r, c) ∉ gs.matched)
    (hcm : gs.isChangeMode = false)
    (hsel : gs.sel = some (r, c))
    (hsame : gs.rules.sameValue = true) :
    handleCellPress gs r c =
      ({ gs with hintCells := [], sel := none },
        [GEvent.matchFailed FailReason.noValidPath]) := by
  unfold handleCellPress
  rw [if_neg (by simp [hplay]), if_neg (by simp [hcell]), if_neg hnm]
  simp only [hcm, if_neg Bool.false_ne_true]
  rw [show ({ gs with hintCells := [] } : GameState).sel = some (r, c) from hsel]
  unfold attemptMatch
  have hv : getCellValue gs.grid r c = some v := hcell
  simp [hv, optToJs, valuesMatch, hsame, validateConnection]

/-- Witness for C7's amended theorem on `pressState`. -/
theorem reselect_reaches_validator_witness :
    handleCellPress pressState 0 0 =
      ({ pressState with hintCells := [], sel := none },
        [GEvent.matchFailed FailReason.noValidPath]) :=
  reselect_reaches_validator pressState 0 0 5 (by rfl) (by rfl) (by decide)
    (by rfl) (by rfl) (by rfl)

/-- C7 counterexample to the claim as stated: reselecting the selected
cell of `pressState` emits a `matchFailed` event and mutates state (the
selection and the hint highlights are cleared), so it is neither a no-op
nor rejected before the validator. -/
theorem reselect_mutates_and_emits_cex :
    (handleCellPress pressState 0 0).2 =
      [GEvent.matchFailed FailReason.noValidPath] ∧
    (handleCellPress pressState 0 0).1.sel = none ∧
    pressState.sel = some (0, 0) ∧
    pressState.hintCells = [(0, 1)] ∧
    (handleCellPress pressState 0 0).1.hintCells = [] := by
  decide

/-- C8: for each of the three resource kinds configured as in the game
(max 5, min 0, initial value 5), `ResourceSystem.reset` brings the
current amount back to the maximum, and so does the explicit
`set(kind, 5)` triple that `completeLevel` performs on level-up. -/
theorem ledger_reset_sets_current_to_max (l : Ledger) (k : RKind)
    (hmax : (ledgerGet l k).maxAmount = 5)
    (hmin : (ledgerGet l k).minAmount = 0)
    (hinit : (ledgerGet l k).initialValue = 5) :
    (ledgerGet (resetLedger l) k).current = (ledgerGet l k).maxAmount ∧
    (ledgerGet (completeLevelLedger l) k).current =
      (ledgerGet l k).maxAmount := by
  cases k <;>
    simp only [ledgerGet, resetLedger, completeLevelLedger, ledgerMap,
      resetResource, setResource] at * <;>
    rw [hmax, hmin, hinit] <;> constructor <;> decide

/-- Witness for C8 on a ledger with partially spent resources. -/
theorem ledger_reset_sets_current_to_max_witness :
    (ledgerGet (resetLedger demoLedger) RKind.hints).current =
      (ledgerGet demoLedger RKind.hints).maxAmount ∧
    (ledgerGet (completeLevelLedger demoLedger) RKind.hints).current =
      (ledgerGet demoLedger RKind.hints).maxAmount :=
  ledger_reset_sets_current_to_max demoLedger RKind.hints
    (by decide) (by decide) (by decide)

/-- C9: whenever `StateMachine.transition` returns `false` (unknown
target state, or `canTransition` fails), the current state, the previous
state and the state history are left unchanged and no `onEnter`/`onExit`
hook runs. -/
theorem transition_false_no_mutation {S : Type} [DecidableEq S]
    (cfg : SMConfig S) (sm : SMState S) (toState : S)
    (h : (transitionSM cfg sm toState).ok = false) :
    (transitionSM cfg sm toState).sm.currentState = sm.currentState ∧
    (transitionSM cfg sm toState).sm.previousState = sm.previousState ∧
    (transitionSM cfg sm toState).sm.stateHistory = sm.stateHistory ∧
    (transitionSM cfg sm toState).hooks = [] := by
  by_cases h1 : toState ∉ cfg.stateNames
  · simp [transitionSM, h1]
  · by_cases h2 : canTransition cfg sm toState = true
    · exfalso
      rw [transitionSM, if_neg h1] at h
      simp [h2] at h
    · have h2f : canTransition cfg sm toState = false :=
        Bool.eq_false_iff.mpr h2
      simp [transitionSM, h1, h2f]

/-- Witness for C9: transitioning to the unregistered state `2` fails and
leaves the demo machine untouched. -/
theorem transition_false_no_mutation_witness :
    (transitionSM smDemoCfg smDemo 2).sm.currentState = smDemo.currentState ∧
    (transitionSM smDemoCfg smDemo 2).sm.previousState = smDemo.previousState ∧
    (transitionSM smDemoCfg smDemo 2).sm.stateHistory = smDemo.stateHistory ∧
    (transitionSM smDemoCfg smDemo 2).hooks = [] :=
  transition_false_no_mutation smDemoCfg smDemo 2 (by decide)

/-- C10 (amended): `addScore` always re-establishes
`score ≤ highScore` and sets the high score to the maximum of the old
high score and the new score (so the high score becomes the new score
exactly when it is exceeded); `reset` zeroes the score and keeps the high
score, which preserves the invariant on every state whose high score is
non-negative — every state whose high score was not seeded negative
through the constructor configuration. -/
theorem score_invariant_preserved (s : ScoreState) (p : Int)
    (_hinv : s.score ≤ s.highScore) (hnn : 0 ≤ s.highScore) :
    (addScore s p).score ≤ (addScore s p).highScore ∧
    (addScore s p).highScore = max s.highScore (addScore s p).score ∧
    (resetScore s).score ≤ (resetScore s).highScore ∧
    (resetScore s).highScore = s.highScore := by
  refine ⟨?_, ?_, hnn, rfl⟩
  · unfold addScore
    dsimp only
    by_cases h : s.highScore < s.score + ⌊(p : ℚ) * s.multiplier⌋
    · rw [if_pos h]
    · rw [if_neg h]; omega
  · unfold addScore
    dsimp only
    by_cases h : s.highScore < s.score + ⌊(p : ℚ) * s.multiplier⌋
    · rw [if_pos h, max_eq_right h.le]
    · rw [if_neg h, max_eq_left (not_lt.mp h)]

/-- Witness for C10's amended theorem on the initial score state. -/
theorem score_invariant_preserved_witness :
    (addScore baseScore 3).score ≤ (addScore baseScore 3).highScore ∧
    (addScore baseScore 3).highScore =
      max baseScore.highScore (addScore baseScore 3).score ∧
    (resetScore baseScore).score ≤ (resetScore baseScore).highScore ∧
    (resetScore baseScore).highScore = baseScore.highScore :=
  score_invariant_preserved baseScore 3 (by decide) (by decide)

/-- C10 counterexample to the claim as stated: the state `negScore`
(constructible via the configuration `{initialScore: -1, highScore: -1}`)
satisfies `score ≤ highScore`, yet after `reset` the score `0` exceeds
the untouched high score `-1`. -/
theorem resetScore_breaks_invariant_cex :
    negScore.score ≤ negScore.highScore ∧
    ¬((resetScore negScore).score ≤ (resetScore negScore).highScore) := by
  decide
